import Mathlib

/-!
# Verification of the StackIt savings-vault ledger

A shallow embedding of the Clarity contract `contracts/StackIt.clar`
(individual single-slot deposit ledger plus group savings engine) and,
modelled from the specification, the multi-deposit ledger whose contract
source is not part of the repository snapshot.

Maps are embedded as functions to `Option`, Clarity `uint` as `Nat`,
principals as `Nat`, and each public operation as a function from the
chain state (plus the ambient block height, passed explicitly) to a
result paired with the post-state; an aborted operation pairs its error
code with the unchanged pre-state, matching Clarity's transactional
rollback semantics.
-/

deriving instance DecidableEq for Except

namespace StackIt

/-- Principals are opaque comparable identities; `Nat` suffices. -/
abbrev Principal := Nat

/-! ## Error codes (`define-constant` block of `StackIt.clar`) -/

def ERR_INVALID_AMOUNT : Nat := 100
def ERR_STILL_LOCKED : Nat := 101
def ERR_NO_DEPOSIT : Nat := 102
def ERR_UNAUTHORIZED : Nat := 103
def ERR_INSUFFICIENT_BALANCE : Nat := 104
def ERR_INVALID_LOCK_OPTION : Nat := 105
def ERR_GROUP_NOT_FOUND : Nat := 106
def ERR_GROUP_FULL : Nat := 107
def ERR_NOT_MEMBER : Nat := 108
def ERR_GROUP_LOCKED : Nat := 109
def ERR_NOT_CREATOR : Nat := 110
def ERR_ALREADY_JOINED : Nat := 111
def ERR_GROUP_NOT_STARTED : Nat := 112
def ERR_INVALID_GROUP_NAME : Nat := 113

/-! ## Lock duration constants (blocks) -/

def ONE_HOUR : Nat := 6
def THREE_HOURS : Nat := 18
def SIX_HOURS : Nat := 36
def EIGHT_HOURS : Nat := 48
def ONE_DAY : Nat := 144
def FIVE_DAYS : Nat := 720
def ONE_WEEK : Nat := 1008
def TWO_WEEKS : Nat := 2016
def ONE_MONTH : Nat := 4320
def THREE_MONTHS : Nat := 12960
def SIX_MONTHS : Nat := 25920
def NINE_MONTHS : Nat := 38880
def ONE_YEAR : Nat := 52560

/-- `get-lock-duration`: nested-if lookup from lock option (1-13) to the
block duration; any other option yields the invalid sentinel `0`. -/
def getLockDuration (opt : Nat) : Nat :=
  if opt = 1 then ONE_HOUR
  else if opt = 2 then THREE_HOURS
  else if opt = 3 then SIX_HOURS
  else if opt = 4 then EIGHT_HOURS
  else if opt = 5 then ONE_DAY
  else if opt = 6 then FIVE_DAYS
  else if opt = 7 then ONE_WEEK
  else if opt = 8 then TWO_WEEKS
  else if opt = 9 then ONE_MONTH
  else if opt = 10 then THREE_MONTHS
  else if opt = 11 then SIX_MONTHS
  else if opt = 12 then NINE_MONTHS
  else if opt = 13 then ONE_YEAR
  else 0

/-! ## Data model -/

/-- One entry of the `deposits` map (individual single-slot ledger). -/
structure DepositRec where
  amount : Nat
  depositBlock : Nat
  lockExpiry : Nat
deriving DecidableEq

/-- One entry of the `savings-groups` map. -/
structure GroupRec where
  creator : Principal
  name : String
  duration : Nat
  threshold : Option Nat
  memberCount : Nat
  locked : Bool
  startBlock : Option Nat
  lockExpiry : Option Nat
deriving DecidableEq

/-- One entry of the `group-members` map. -/
structure MemberRec where
  amount : Nat
  depositBlock : Nat
  joinedBlock : Nat
deriving DecidableEq

/-- The contract's whole mutable state: the four maps and the group
counter. Maps are total functions into `Option`. -/
structure ChainState where
  deposits : Principal → Option DepositRec
  groupCounter : Nat
  savingsGroups : Nat → Option GroupRec
  groupMembers : Nat → Principal → Option MemberRec
  groupMemberList : Nat → Option (List Principal)

/-- State at contract deployment: every map empty, counter zero. -/
def initState : ChainState where
  deposits := fun _ => none
  groupCounter := 0
  savingsGroups := fun _ => none
  groupMembers := fun _ _ => none
  groupMemberList := fun _ => none

/-! ## Individual single-slot ledger operations

Each public operation takes the pre-state, the caller (`tx-sender`), its
arguments and the ambient `stacks-block-height`, and returns the Clarity
response paired with the post-state; on an error response the post-state
is the unchanged pre-state (transaction rollback). The external
`stx-transfer?` custody move is the atomicity boundary assumed by the
spec and carries no ledger state, so it is not modelled. -/

/-- `deposit`: store (overwriting) the caller's single-slot record. -/
def deposit (st : ChainState) (sender : Principal) (amount lockOpt height : Nat) :
    Except Nat Nat × ChainState :=
  let lockBlocks := getLockDuration lockOpt
  if amount = 0 then (Except.error ERR_INVALID_AMOUNT, st)
  else if lockBlocks = 0 then (Except.error ERR_INVALID_LOCK_OPTION, st)
  else
    (Except.ok amount,
     { st with
        deposits := fun u =>
          if u = sender then
            some { amount := amount, depositBlock := height,
                   lockExpiry := height + lockBlocks }
          else st.deposits u })

/-- `withdraw`: pay out after expiry, deleting the record on a full
withdrawal and reducing the amount (expiry unchanged) otherwise. -/
def withdraw (st : ChainState) (sender : Principal) (amount height : Nat) :
    Except Nat Nat × ChainState :=
  match st.deposits sender with
  | none => (Except.error ERR_NO_DEPOSIT, st)
  | some data =>
    if height < data.lockExpiry then (Except.error ERR_STILL_LOCKED, st)
    else if data.amount < amount then (Except.error ERR_INSUFFICIENT_BALANCE, st)
    else
      (Except.ok amount,
       { st with
          deposits := fun u =>
            if u = sender then
              if amount = data.amount then none
              else
                some { amount := data.amount - amount,
                       depositBlock := data.depositBlock,
                       lockExpiry := data.lockExpiry }
            else st.deposits u })

/-! ## Group savings engine operations -/

/-- The committed effect of `create-group` once every `asserts!` has
passed: store the Open group, register the creator as first member,
initialise the member list to `[creator]`, and advance the counter. -/
def createGroupCommit (st : ChainState) (creator : Principal) (name : String)
    (lockBlocks : Nat) (threshold : Option Nat) (groupId height : Nat) : ChainState :=
  { st with
    savingsGroups := fun g =>
      if g = groupId then
        some { creator := creator, name := name, duration := lockBlocks,
               threshold := threshold, memberCount := 1, locked := false,
               startBlock := none, lockExpiry := none }
      else st.savingsGroups g
    groupMembers := fun g m =>
      if g = groupId ∧ m = creator then
        some { amount := 0, depositBlock := 0, joinedBlock := height }
      else st.groupMembers g m
    groupMemberList := fun g =>
      if g = groupId then some [creator] else st.groupMemberList g
    groupCounter := groupId }

/-- `create-group`: validate the name, lock option and (when present)
threshold, then commit a fresh Open group under id `group-counter + 1`. -/
def createGroup (st : ChainState) (creator : Principal) (name : String)
    (lockOpt : Nat) (threshold : Option Nat) (height : Nat) :
    Except Nat Nat × ChainState :=
  let groupId := st.groupCounter + 1
  let lockBlocks := getLockDuration lockOpt
  if name.length = 0 then (Except.error ERR_INVALID_GROUP_NAME, st)
  else if 50 < name.length then (Except.error ERR_INVALID_GROUP_NAME, st)
  else if lockBlocks = 0 then (Except.error ERR_INVALID_LOCK_OPTION, st)
  else
    match threshold with
    | some t =>
      if t = 0 ∨ 100 < t then (Except.error ERR_INVALID_AMOUNT, st)
      else
        (Except.ok groupId,
         createGroupCommit st creator name lockBlocks threshold groupId height)
    | none =>
      (Except.ok groupId,
       createGroupCommit st creator name lockBlocks threshold groupId height)

/-- The committed effect of `join-group` once every precondition has
passed: register the joiner, append them to the member list (subject to
the 100-entry `as-max-len?` capacity, whose failure aborts the whole
call), bump `member-count`, and auto-lock when a threshold is reached. -/
def joinGroupCommit (st : ChainState) (joiner : Principal) (groupId height : Nat)
    (groupData : GroupRec) (currentMembers : List Principal) :
    Except Nat String × ChainState :=
  let updatedMembers := currentMembers ++ [joiner]
  if 100 < updatedMembers.length then (Except.error ERR_GROUP_FULL, st)
  else
    let newMemberCount := groupData.memberCount + 1
    let locksNow : Bool :=
      match groupData.threshold with
      | some t => decide (t ≤ newMemberCount)
      | none => false
    let newGroup : GroupRec :=
      if locksNow then
        { groupData with
            memberCount := newMemberCount, locked := true,
            startBlock := some height,
            lockExpiry := some (height + groupData.duration) }
      else { groupData with memberCount := newMemberCount }
    (Except.ok (if locksNow then "joined-and-locked" else "joined"),
     { st with
        groupMembers := fun g m =>
          if g = groupId ∧ m = joiner then
            some { amount := 0, depositBlock := 0, joinedBlock := height }
          else st.groupMembers g m
        groupMemberList := fun g =>
          if g = groupId then some updatedMembers else st.groupMemberList g
        savingsGroups := fun g =>
          if g = groupId then some newGroup else st.savingsGroups g })

/-- `join-group`: the group must exist, be Open and not already contain
the joiner; a thresholded group must still be below its threshold. -/
def joinGroup (st : ChainState) (joiner : Principal) (groupId height : Nat) :
    Except Nat String × ChainState :=
  match st.savingsGroups groupId with
  | none => (Except.error ERR_GROUP_NOT_FOUND, st)
  | some groupData =>
    let currentMembers := (st.groupMemberList groupId).getD []
    if groupData.locked then (Except.error ERR_GROUP_LOCKED, st)
    else if (st.groupMembers groupId joiner).isSome then
      (Except.error ERR_ALREADY_JOINED, st)
    else
      match groupData.threshold with
      | some t =>
        if groupData.memberCount < t then
          joinGroupCommit st joiner groupId height groupData currentMembers
        else (Except.error ERR_GROUP_FULL, st)
      | none => joinGroupCommit st joiner groupId height groupData currentMembers

/-- `start-group-lock`: the creator manually locks a threshold-free Open
group; non-creators get `ERR-NOT-CREATOR`, an already locked group gets
`ERR-GROUP-LOCKED`, and a thresholded group gets `ERR-UNAUTHORIZED`. -/
def startGroupLock (st : ChainState) (starter : Principal) (groupId height : Nat) :
    Except Nat Bool × ChainState :=
  match st.savingsGroups groupId with
  | none => (Except.error ERR_GROUP_NOT_FOUND, st)
  | some groupData =>
    if starter ≠ groupData.creator then (Except.error ERR_NOT_CREATOR, st)
    else if groupData.locked then (Except.error ERR_GROUP_LOCKED, st)
    else if groupData.threshold.isSome then (Except.error ERR_UNAUTHORIZED, st)
    else
      (Except.ok true,
       { st with
          savingsGroups := fun g =>
            if g = groupId then
              some { groupData with
                      locked := true, startBlock := some height,
                      lockExpiry := some (height + groupData.duration) }
            else st.savingsGroups g })

/-- `group-deposit`: a member of a Locked group accumulates `amount`
onto their pooled balance and refreshes their `deposit-block`. -/
def groupDeposit (st : ChainState) (depositor : Principal) (groupId amount height : Nat) :
    Except Nat Nat × ChainState :=
  match st.savingsGroups groupId with
  | none => (Except.error ERR_GROUP_NOT_FOUND, st)
  | some groupData =>
    match st.groupMembers groupId depositor with
    | none => (Except.error ERR_NOT_MEMBER, st)
    | some memberData =>
      if amount = 0 then (Except.error ERR_INVALID_AMOUNT, st)
      else if ¬ groupData.locked then (Except.error ERR_GROUP_NOT_STARTED, st)
      else
        (Except.ok amount,
         { st with
            groupMembers := fun g m =>
              if g = groupId ∧ m = depositor then
                some { memberData with
                        amount := memberData.amount + amount,
                        depositBlock := height }
              else st.groupMembers g m })

/-- `group-withdraw`: after the group's `lock-expiry`, a member reduces
their pooled balance; the membership record is deleted when the balance
reaches zero. The `Group` record itself is never touched. -/
def groupWithdraw (st : ChainState) (withdrawer : Principal) (groupId amount height : Nat) :
    Except Nat Nat × ChainState :=
  match st.savingsGroups groupId with
  | none => (Except.error ERR_GROUP_NOT_FOUND, st)
  | some groupData =>
    match st.groupMembers groupId withdrawer with
    | none => (Except.error ERR_NOT_MEMBER, st)
    | some memberData =>
      match groupData.lockExpiry with
      | none => (Except.error ERR_GROUP_NOT_STARTED, st)
      | some lockExpiry =>
        if amount = 0 then (Except.error ERR_INVALID_AMOUNT, st)
        else if height < lockExpiry then (Except.error ERR_STILL_LOCKED, st)
        else if memberData.amount < amount then
          (Except.error ERR_INSUFFICIENT_BALANCE, st)
        else
          let newAmount := memberData.amount - amount
          (Except.ok amount,
           { st with
              groupMembers := fun g m =>
                if g = groupId ∧ m = withdrawer then
                  if newAmount = 0 then none
                  else some { memberData with amount := newAmount }
                else st.groupMembers g m })

/-! ## Public operations as a transition system -/

/-- One public state-transition call of the contract, with the block
height at which it executes. -/
inductive Op where
  | deposit (sender : Principal) (amount lockOpt height : Nat)
  | withdraw (sender : Principal) (amount height : Nat)
  | createGroup (creator : Principal) (name : String) (lockOpt : Nat)
      (threshold : Option Nat) (height : Nat)
  | joinGroup (joiner : Principal) (groupId height : Nat)
  | startGroupLock (starter : Principal) (groupId height : Nat)
  | groupDeposit (depositor : Principal) (groupId amount height : Nat)
  | groupWithdraw (withdrawer : Principal) (groupId amount height : Nat)

/-- Apply one public call; a failing call leaves the state unchanged. -/
def step (st : ChainState) : Op → ChainState
  | .deposit s a l h => (deposit st s a l h).2
  | .withdraw s a h => (withdraw st s a h).2
  | .createGroup c n l t h => (createGroup st c n l t h).2
  | .joinGroup j g h => (joinGroup st j g h).2
  | .startGroupLock s g h => (startGroupLock st s g h).2
  | .groupDeposit d g a h => (groupDeposit st d g a h).2
  | .groupWithdraw w g a h => (groupWithdraw st w g a h).2

/-- Apply a sequence of public calls in order. -/
def run (st : ChainState) (ops : List Op) : ChainState := ops.foldl step st

/-- Invariant: every stored group id is at most the group counter, so
`create-group`'s next id `group-counter + 1` is always fresh. -/
def CounterBound (st : ChainState) : Prop :=
  ∀ gid : Nat, st.groupCounter < gid → st.savingsGroups gid = none

/-- Invariant: every existing group's `member-count` equals the length
of that group's `group-member-list` entry. -/
def MemberCountInv (st : ChainState) : Prop :=
  ∀ (gid : Nat) (g : GroupRec), st.savingsGroups gid = some g →
    ∃ l : List Principal, st.groupMemberList gid = some l ∧ g.memberCount = l.length

/-! ## Multi-deposit ledger

Modelled from the spec: the multi-deposit ledger contract
(`create-deposit`, `withdraw-deposit`, `get-user-deposit-ids`) is not
present under `src/` — only its front-end callers are — so its state and
operations below follow the spec's §3 "MultiDeposit" and §4.3 wording:
per-owner independently locked slots keyed by `(owner, deposit_id)`, a
globally unique monotonically increasing `deposit_id`, an append-only
per-owner id index, and a `withdrawn` flag set when a slot's remaining
amount reaches zero. -/

/-- Modelled from the spec: one multi-deposit slot (§3 "MultiDeposit"). -/
structure MultiSlot where
  amount : Nat
  lockOption : Nat
  depositTime : Nat
  lockExpiry : Nat
  withdrawn : Bool
  label : Option String
deriving DecidableEq

/-- Modelled from the spec: the multi-deposit ledger state — a global
monotonic id counter, the slot map keyed by `(owner, deposit_id)`, and
the per-owner append-only id index. -/
structure MultiState where
  depositCounter : Nat
  userDeposits : Principal → Nat → Option MultiSlot
  userDepositIds : Principal → List Nat

/-- Modelled from the spec: the multi-deposit ledger before any deposit. -/
def initMultiState : MultiState where
  depositCounter := 0
  userDeposits := fun _ _ => none
  userDepositIds := fun _ => []

/-- Modelled from the spec (§4.3 `create_deposit`): same preconditions
as the single-slot `deposit`, but allocates a new, previously-unused
`deposit_id`, appends it to the caller's id index, and stores a new
slot instead of overwriting. -/
def createDeposit (st : MultiState) (owner : Principal) (amount lockOpt : Nat)
    (label : Option String) (now : Nat) : Except Nat Nat × MultiState :=
  let duration := getLockDuration lockOpt
  if amount = 0 then (Except.error ERR_INVALID_AMOUNT, st)
  else if duration = 0 then (Except.error ERR_INVALID_LOCK_OPTION, st)
  else
    let depositId := st.depositCounter + 1
    (Except.ok depositId,
     { depositCounter := depositId
       userDeposits := fun o i =>
         if o = owner ∧ i = depositId then
           some { amount := amount, lockOption := lockOpt, depositTime := now,
                  lockExpiry := now + duration, withdrawn := false, label := label }
         else st.userDeposits o i
       userDepositIds := fun o =>
         if o = owner then st.userDepositIds o ++ [depositId]
         else st.userDepositIds o })

/-- Modelled from the spec (§4.3 `withdraw_deposit`): the slot must
exist for the caller, not be already fully withdrawn, its own
`lock_expiry` must have passed, and the amount must not exceed the
slot's remaining amount; the slot's amount is reduced and `withdrawn`
becomes true exactly when the remainder reaches zero; the id index is
left untouched. -/
def withdrawDeposit (st : MultiState) (owner : Principal) (depositId amount now : Nat) :
    Except Nat Nat × MultiState :=
  match st.userDeposits owner depositId with
  | none => (Except.error ERR_NO_DEPOSIT, st)
  | some slot =>
    if slot.withdrawn then (Except.error ERR_NO_DEPOSIT, st)
    else if now < slot.lockExpiry then (Except.error ERR_STILL_LOCKED, st)
    else if slot.amount < amount then (Except.error ERR_INSUFFICIENT_BALANCE, st)
    else
      let newAmount := slot.amount - amount
      (Except.ok amount,
       { st with
          userDeposits := fun o i =>
            if o = owner ∧ i = depositId then
              some { slot with amount := newAmount, withdrawn := decide (newAmount = 0) }
            else st.userDeposits o i })

/-- Modelled from the spec: ids recorded anywhere in the multi-deposit
ledger never exceed the counter, so `depositCounter + 1` is unused. -/
def MultiCounterBound (st : MultiState) : Prop :=
  ∀ (o : Principal) (i : Nat), st.depositCounter < i →
    st.userDeposits o i = none ∧ i ∉ st.userDepositIds o

end StackIt

namespace StackIt

/-- C8: The lock-duration resolver maps the 13 valid lock options to their
exact fixed block durations (1 to 6, 2 to 18, 3 to 36, 4 to 48, 5 to 144,
6 to 720, 7 to 1008, 8 to 2016, 9 to 4320, 10 to 12960, 11 to 25920,
12 to 38880, 13 to 52560) and maps every other natural number to the
invalid sentinel 0, never to a default duration. -/
theorem getLockDuration_table :
    (getLockDuration 1 = 6 ∧ getLockDuration 2 = 18 ∧ getLockDuration 3 = 36 ∧
     getLockDuration 4 = 48 ∧ getLockDuration 5 = 144 ∧ getLockDuration 6 = 720 ∧
     getLockDuration 7 = 1008 ∧ getLockDuration 8 = 2016 ∧ getLockDuration 9 = 4320 ∧
     getLockDuration 10 = 12960 ∧ getLockDuration 11 = 25920 ∧
     getLockDuration 12 = 38880 ∧ getLockDuration 13 = 52560) ∧
    ∀ n : Nat, (n = 0 ∨ 13 < n) → getLockDuration n = 0 := by
  refine ⟨by decide, ?_⟩
  intro n hn
  unfold getLockDuration
  rw [if_neg (by omega : ¬ n = 1), if_neg (by omega : ¬ n = 2), if_neg (by omega : ¬ n = 3),
    if_neg (by omega : ¬ n = 4), if_neg (by omega : ¬ n = 5), if_neg (by omega : ¬ n = 6),
    if_neg (by omega : ¬ n = 7), if_neg (by omega : ¬ n = 8), if_neg (by omega : ¬ n = 9),
    if_neg (by omega : ¬ n = 10), if_neg (by omega : ¬ n = 11), if_neg (by omega : ¬ n = 12),
    if_neg (by omega : ¬ n = 13)]

/-- Witness for C8: an out-of-range option (14) resolves to the sentinel 0. -/
theorem getLockDuration_table_witness : getLockDuration 14 = 0 :=
  getLockDuration_table.2 14 (Or.inr (by decide))

/-- C2: A single-slot withdrawal succeeds only once the block height has
reached the record's `lock-expiry`: any withdrawal strictly before the
expiry fails `ERR-STILL-LOCKED`; and concretely, depositing 100000000
with lock option 5 at height `T` stores `lock-expiry = T + 144`, a
withdrawal of the full amount at `T + 143` fails `ERR-STILL-LOCKED`, and
the same withdrawal at `T + 144` succeeds and deletes the record. -/
theorem withdraw_only_after_expiry (st : ChainState) (sender : Principal) (T : Nat) :
    (∀ (st' : ChainState) (u : Principal) (rec : DepositRec) (amount h : Nat),
        st'.deposits u = some rec → h < rec.lockExpiry →
        (withdraw st' u amount h).1 = Except.error ERR_STILL_LOCKED) ∧
    (deposit st sender 100000000 5 T).1 = Except.ok 100000000 ∧
    (deposit st sender 100000000 5 T).2.deposits sender =
      some { amount := 100000000, depositBlock := T, lockExpiry := T + 144 } ∧
    (withdraw (deposit st sender 100000000 5 T).2 sender 100000000 (T + 143)).1 =
      Except.error ERR_STILL_LOCKED ∧
    (withdraw (deposit st sender 100000000 5 T).2 sender 100000000 (T + 144)).1 =
      Except.ok 100000000 ∧
    (withdraw (deposit st sender 100000000 5 T).2 sender
        100000000 (T + 144)).2.deposits sender = none := by
  have hgen : ∀ (st' : ChainState) (u : Principal) (rec : DepositRec) (amount h : Nat),
      st'.deposits u = some rec → h < rec.lockExpiry →
      (withdraw st' u amount h).1 = Except.error ERR_STILL_LOCKED := by
    intro st' u rec amount h hrec hlt
    unfold withdraw
    rw [hrec]
    simp [hlt]
  have hdep : deposit st sender 100000000 5 T =
      (Except.ok 100000000,
       { st with
          deposits := fun u =>
            if u = sender then
              some { amount := 100000000, depositBlock := T, lockExpiry := T + 144 }
            else st.deposits u }) := by
    unfold deposit
    norm_num [getLockDuration, ONE_DAY]
  have hlook : (deposit st sender 100000000 5 T).2.deposits sender =
      some { amount := 100000000, depositBlock := T, lockExpiry := T + 144 } := by
    rw [hdep]
    simp
  refine ⟨hgen, by rw [hdep], hlook, ?_, ?_, ?_⟩
  · exact hgen _ _ _ _ _ hlook (by show T + 143 < T + 144; omega)
  · unfold withdraw
    rw [hlook]
    simp
  · unfold withdraw
    rw [hlook]
    simp

/-- Witness for C2: the scenario at `T = 10` from the empty state; the
early withdrawal at height 153 fails `ERR-STILL-LOCKED`. -/
theorem withdraw_only_after_expiry_witness :
    (withdraw (deposit initState 3 100000000 5 10).2 3 100000000 153).1 =
      Except.error ERR_STILL_LOCKED :=
  (withdraw_only_after_expiry initState 3 10).2.2.2.1

/-- C3: A successful `deposit` by an owner who already has a single-slot
record replaces the record entirely: the stored amount is exactly the new
amount (not the sum with the prior balance) and `lock-expiry` restarts
from the new deposit height plus the newly resolved duration. -/
theorem deposit_overwrites (st : ChainState) (sender : Principal) (old : DepositRec)
    (_hold : st.deposits sender = some old) (amount lockOpt height : Nat)
    (hamt : amount ≠ 0) (hopt : getLockDuration lockOpt ≠ 0) :
    (deposit st sender amount lockOpt height).1 = Except.ok amount ∧
    (deposit st sender amount lockOpt height).2.deposits sender =
      some { amount := amount, depositBlock := height,
             lockExpiry := height + getLockDuration lockOpt } := by
  unfold deposit
  simp [hamt, hopt]

/-- C1: A successful `join-group` on a group whose threshold is set and
whose `member-count` is exactly one below that threshold both registers
the joiner and, in the same call, transitions the group from Open
(`locked = false` beforehand) to Locked: `locked = true`,
`start-block = height`, `lock-expiry = height + duration`, and
`member-count` equal to the threshold. -/
theorem joinGroup_threshold_locks (st : ChainState) (joiner : Principal)
    (groupId height t : Nat) (g : GroupRec)
    (hg : st.savingsGroups groupId = some g)
    (hthr : g.threshold = some t)
    (hcount : g.memberCount + 1 = t)
    (hok : ∃ s, (joinGroup st joiner groupId height).1 = Except.ok s) :
    (joinGroup st joiner groupId height).1 = Except.ok "joined-and-locked" ∧
    (joinGroup st joiner groupId height).2.savingsGroups groupId =
      some { g with
              memberCount := t, locked := true, startBlock := some height,
              lockExpiry := some (height + g.duration) } ∧
    (joinGroup st joiner groupId height).2.groupMembers groupId joiner =
      some { amount := 0, depositBlock := 0, joinedBlock := height } ∧
    g.locked = false := by
  obtain ⟨s, hs⟩ := hok
  by_cases hl : g.locked
  · exfalso
    unfold joinGroup at hs
    rw [hg] at hs
    simp [hl] at hs
  · simp only [Bool.not_eq_true] at hl
    by_cases hm : (st.groupMembers groupId joiner).isSome
    · exfalso
      unfold joinGroup at hs
      rw [hg] at hs
      simp [hl, hm] at hs
    · simp only [Bool.not_eq_true] at hm
      have hlt : g.memberCount < t := by omega
      by_cases hcap : 100 < ((st.groupMemberList groupId).getD []).length + 1
      · exfalso
        unfold joinGroup joinGroupCommit at hs
        rw [hg] at hs
        simp [hl, hm, hthr, hcap, hlt] at hs
      · unfold joinGroup joinGroupCommit
        rw [hg]
        simp [hl, hm, hthr, hlt, hcap, hcount]

/-- Witness for C1: group 1 is created with threshold 2 by principal 1;
principal 2's join at height 4 locks it with expiry 4 + 6 = 10. -/
theorem joinGroup_threshold_locks_witness :
    (joinGroup (createGroup initState 1 "g" 1 (some 2) 0).2 2 1 4).1 =
        Except.ok "joined-and-locked" ∧
    (joinGroup (createGroup initState 1 "g" 1 (some 2) 0).2 2 1 4).2.savingsGroups 1 =
      some { creator := 1, name := "g", duration := 6, threshold := some 2,
             memberCount := 2, locked := true, startBlock := some 4,
             lockExpiry := some 10 } := by
  have h := joinGroup_threshold_locks (createGroup initState 1 "g" 1 (some 2) 0).2
    2 1 4 2
    { creator := 1, name := "g", duration := 6, threshold := some 2,
      memberCount := 1, locked := false, startBlock := none, lockExpiry := none }
    (by decide) (by decide) (by decide) ⟨"joined-and-locked", by decide⟩
  exact ⟨h.1, h.2.1⟩

/-- Witness for C3: owner 7 deposits 5 at height 10 (expiry 16), then
re-deposits 3 with option 2 at height 12; the record becomes amount 3
with expiry 12 + 18 = 30, the prior balance and schedule discarded. -/
theorem deposit_overwrites_witness :
    (deposit (deposit initState 7 5 1 10).2 7 3 2 12).2.deposits 7 =
      some { amount := 3, depositBlock := 12, lockExpiry := 30 } := by
  have h := deposit_overwrites (deposit initState 7 5 1 10).2 7
    { amount := 5, depositBlock := 10, lockExpiry := 16 } (by decide) 3 2 12
    (by decide) (by decide)
  exact h.2

/-- C4: After the group's `lock-expiry`, a member's `group-withdraw` of
their full accumulated balance succeeds, deletes their `group-members`
record, and leaves the whole `savings-groups` map (hence the group's
`member-count` and every other field), the member list and the group
counter untouched. -/
theorem groupWithdraw_full_deletes_member (st : ChainState) (w : Principal)
    (groupId height : Nat) (g : GroupRec) (m : MemberRec) (e : Nat)
    (hg : st.savingsGroups groupId = some g)
    (hm : st.groupMembers groupId w = some m)
    (he : g.lockExpiry = some e)
    (hexp : e ≤ height)
    (hpos : m.amount ≠ 0) :
    (groupWithdraw st w groupId m.amount height).1 = Except.ok m.amount ∧
    (groupWithdraw st w groupId m.amount height).2.groupMembers groupId w = none ∧
    (groupWithdraw st w groupId m.amount height).2.savingsGroups = st.savingsGroups ∧
    (groupWithdraw st w groupId m.amount height).2.groupMemberList = st.groupMemberList ∧
    (groupWithdraw st w groupId m.amount height).2.groupCounter = st.groupCounter ∧
    (groupWithdraw st w groupId m.amount height).2.deposits = st.deposits := by
  unfold groupWithdraw
  have hnl : ¬ height < e := by omega
  simp [hg, hm, he, hpos, hnl, Nat.sub_self]

/-- Witness for C4: principal 2 joins group 1 (threshold 2, locked at
height 0 with expiry 6), deposits 50 at height 5, and withdraws the full
50 at height 6: the membership record is gone, the group record intact. -/
theorem groupWithdraw_full_deletes_member_witness :
    (groupWithdraw
        (run initState
          [Op.createGroup 1 "g" 1 (some 2) 0, Op.joinGroup 2 1 0,
           Op.groupDeposit 2 1 50 5]) 2 1 50 6).1 = Except.ok 50 ∧
    (groupWithdraw
        (run initState
          [Op.createGroup 1 "g" 1 (some 2) 0, Op.joinGroup 2 1 0,
           Op.groupDeposit 2 1 50 5]) 2 1 50 6).2.groupMembers 1 2 = none := by
  have h := groupWithdraw_full_deletes_member
    (run initState
      [Op.createGroup 1 "g" 1 (some 2) 0, Op.joinGroup 2 1 0,
       Op.groupDeposit 2 1 50 5]) 2 1 6
    { creator := 1, name := "g", duration := 6, threshold := some 2,
      memberCount := 2, locked := true, startBlock := some 0, lockExpiry := some 6 }
    { amount := 50, depositBlock := 5, joinedBlock := 0 } 6
    (by decide) (by decide) (by decide) (by decide) (by decide)
  exact ⟨h.1, h.2.1⟩

/-- C5 counterexample: threshold 1 lies outside the claimed sane range
2 to 100, yet `create-group` accepts it and creates the group — the
code's guard is `0 < threshold AND threshold <= 100`, not `2 <= _`. -/
theorem createGroup_threshold_one_accepted :
    (createGroup initState 1 "g" 1 (some 1) 0).1 = Except.ok 1 ∧
    (createGroup initState 1 "g" 1 (some 1) 0).2.savingsGroups 1 ≠ none ∧
    ¬ (2 ≤ 1 ∧ 1 ≤ 100) := by decide

/-- C5 (amended): `create-group` with a present threshold succeeds only
when the threshold lies in the range 1 to 100; every call supplying a
present threshold outside that range (0 or above 100) fails with no
state change. -/
theorem createGroup_threshold_range (st : ChainState) (creator : Principal)
    (name : String) (lockOpt t height : Nat) :
    ((∃ gid, (createGroup st creator name lockOpt (some t) height).1 = Except.ok gid) →
      1 ≤ t ∧ t ≤ 100) ∧
    ((t = 0 ∨ 100 < t) →
      (∃ e, (createGroup st creator name lockOpt (some t) height).1 = Except.error e) ∧
      (createGroup st creator name lockOpt (some t) height).2 = st) := by
  unfold createGroup
  by_cases h1 : name.length = 0
  · simp [h1]
  · by_cases h2 : 50 < name.length
    · simp [h1, h2]
    · by_cases h3 : getLockDuration lockOpt = 0
      · simp [h1, h2, h3]
      · by_cases h4 : t = 0 ∨ 100 < t
        · simp [h1, h2, h3, h4]
        · simp [h1, h2, h3, h4]
          omega

/-- Witness for C5: threshold 101 is rejected with no state change, and
the success of threshold 2 bounds it inside 1 to 100. -/
theorem createGroup_threshold_range_witness :
    (createGroup initState 1 "g" 1 (some 101) 0).2 = initState ∧
    (1 ≤ 2 ∧ 2 ≤ 100) :=
  ⟨((createGroup_threshold_range initState 1 "g" 1 101 0).2
      (Or.inr (by decide))).2,
   (createGroup_threshold_range initState 1 "g" 1 2 0).1 ⟨1, by decide⟩⟩

/-- C6 counterexample: a non-creator calling `start-group-lock` fails
with `ERR-NOT-CREATOR` (u110), which is a different error code from
`ERR-UNAUTHORIZED` (u103) — the claim names the wrong error kind for the
non-creator case. -/
theorem startGroupLock_noncreator_error_code :
    (startGroupLock (createGroup initState 1 "g" 1 none 0).2 2 1 5).1 =
      Except.error ERR_NOT_CREATOR ∧
    ERR_NOT_CREATOR ≠ ERR_UNAUTHORIZED := by decide

/-- C6 (amended): `start-group-lock` fails with the `ERR-NOT-CREATOR`
error kind whenever the caller is not the group's creator, and fails
for every group that has a threshold set even when the caller is the
creator; in both failure cases the state is unchanged. -/
theorem startGroupLock_failures (st : ChainState) (caller : Principal)
    (groupId height : Nat) (g : GroupRec)
    (hg : st.savingsGroups groupId = some g) :
    (caller ≠ g.creator →
      (startGroupLock st caller groupId height).1 = Except.error ERR_NOT_CREATOR ∧
      (startGroupLock st caller groupId height).2 = st) ∧
    (g.threshold.isSome = true →
      (∃ e, (startGroupLock st caller groupId height).1 = Except.error e) ∧
      (startGroupLock st caller groupId height).2 = st) := by
  unfold startGroupLock
  rw [hg]
  constructor
  · intro hne
    simp [hne]
  · intro hthr
    by_cases hne : caller = g.creator
    · by_cases hl : g.locked
      · simp [hne, hl]
      · simp [hne, hl, hthr]
    · simp [hne]

/-- Witness for C6: in a two-group state (group 1 without threshold,
group 2 with threshold 5, both created by principal 1), principal 2's
call on group 1 leaves the state unchanged, and the creator's call on
group 2 fails even though the caller is the creator. -/
theorem startGroupLock_failures_witness :
    (startGroupLock
        (run initState [Op.createGroup 1 "g" 1 none 0, Op.createGroup 1 "h" 1 (some 5) 0])
        2 1 5).2 =
      run initState [Op.createGroup 1 "g" 1 none 0, Op.createGroup 1 "h" 1 (some 5) 0] ∧
    (∃ e,
      (startGroupLock
          (run initState [Op.createGroup 1 "g" 1 none 0, Op.createGroup 1 "h" 1 (some 5) 0])
          1 2 5).1 = Except.error e) := by
  refine ⟨?_, ?_⟩
  · exact ((startGroupLock_failures
      (run initState [Op.createGroup 1 "g" 1 none 0, Op.createGroup 1 "h" 1 (some 5) 0])
      2 1 5
      { creator := 1, name := "g", duration := 6, threshold := none,
        memberCount := 1, locked := false, startBlock := none, lockExpiry := none }
      (by decide)).1 (by decide)).2
  · exact ((startGroupLock_failures
      (run initState [Op.createGroup 1 "g" 1 none 0, Op.createGroup 1 "h" 1 (some 5) 0])
      1 2 5
      { creator := 1, name := "h", duration := 6, threshold := some 5,
        memberCount := 1, locked := false, startBlock := none, lockExpiry := none }
      (by decide)).2 (by decide)).1

/-! ## Frame lemmas: which state components each operation can touch -/

theorem deposit_groups_frame (st : ChainState) (s : Principal) (a l h : Nat) :
    (deposit st s a l h).2.savingsGroups = st.savingsGroups ∧
    (deposit st s a l h).2.groupCounter = st.groupCounter ∧
    (deposit st s a l h).2.groupMemberList = st.groupMemberList := by
  unfold deposit
  dsimp only
  split_ifs <;> exact ⟨rfl, rfl, rfl⟩

theorem withdraw_groups_frame (st : ChainState) (s : Principal) (a h : Nat) :
    (withdraw st s a h).2.savingsGroups = st.savingsGroups ∧
    (withdraw st s a h).2.groupCounter = st.groupCounter ∧
    (withdraw st s a h).2.groupMemberList = st.groupMemberList := by
  unfold withdraw
  rcases st.deposits s with _ | d
  · exact ⟨rfl, rfl, rfl⟩
  · dsimp only
    split_ifs <;> exact ⟨rfl, rfl, rfl⟩

theorem groupDeposit_groups_frame (st : ChainState) (d : Principal) (gid a h : Nat) :
    (groupDeposit st d gid a h).2.savingsGroups = st.savingsGroups ∧
    (groupDeposit st d gid a h).2.groupCounter = st.groupCounter ∧
    (groupDeposit st d gid a h).2.groupMemberList = st.groupMemberList := by
  unfold groupDeposit
  rcases st.savingsGroups gid with _ | g
  · exact ⟨rfl, rfl, rfl⟩
  · rcases st.groupMembers gid d with _ | m
    · exact ⟨rfl, rfl, rfl⟩
    · dsimp only
      split_ifs <;> exact ⟨rfl, rfl, rfl⟩

theorem groupWithdraw_groups_frame (st : ChainState) (w : Principal) (gid a h : Nat) :
    (groupWithdraw st w gid a h).2.savingsGroups = st.savingsGroups ∧
    (groupWithdraw st w gid a h).2.groupCounter = st.groupCounter ∧
    (groupWithdraw st w gid a h).2.groupMemberList = st.groupMemberList := by
  unfold groupWithdraw
  rcases hg : st.savingsGroups gid with _ | g
  · simp
  · dsimp only
    rcases hm : st.groupMembers gid w with _ | m
    · simp
    · dsimp only
      rcases he : g.lockExpiry with _ | e
      · simp
      · dsimp only
        split_ifs <;> simp

theorem createGroup_counter_ge (st : ChainState) (c : Principal) (n : String)
    (l : Nat) (t : Option Nat) (h : Nat) :
    st.groupCounter ≤ (createGroup st c n l t h).2.groupCounter := by
  unfold createGroup createGroupCommit
  rcases t with _ | t' <;> dsimp only <;> split_ifs <;> simp

theorem createGroup_savings_ne (st : ChainState) (c : Principal) (n : String)
    (l : Nat) (t : Option Nat) (h gid : Nat) (hne : gid ≠ st.groupCounter + 1) :
    (createGroup st c n l t h).2.savingsGroups gid = st.savingsGroups gid := by
  unfold createGroup createGroupCommit
  rcases t with _ | t' <;> dsimp only <;> split_ifs <;> simp [hne]

theorem createGroup_list_ne (st : ChainState) (c : Principal) (n : String)
    (l : Nat) (t : Option Nat) (h gid : Nat) (hne : gid ≠ st.groupCounter + 1) :
    (createGroup st c n l t h).2.groupMemberList gid = st.groupMemberList gid := by
  unfold createGroup createGroupCommit
  rcases t with _ | t' <;> dsimp only <;> split_ifs <;> simp [hne]

theorem createGroup_counter_cases (st : ChainState) (c : Principal) (n : String)
    (l : Nat) (t : Option Nat) (h : Nat) :
    (createGroup st c n l t h).2.groupCounter = st.groupCounter ∨
    (createGroup st c n l t h).2.groupCounter = st.groupCounter + 1 := by
  unfold createGroup createGroupCommit
  rcases t with _ | t' <;> dsimp only <;> split_ifs <;> simp

theorem joinGroup_counter (st : ChainState) (j : Principal) (gid h : Nat) :
    (joinGroup st j gid h).2.groupCounter = st.groupCounter := by
  unfold joinGroup joinGroupCommit
  rcases hg : st.savingsGroups gid with _ | g
  · rfl
  · dsimp only
    rcases hthr : g.threshold with _ | t <;> simp only [hthr] <;>
      split_ifs <;> (try dsimp only) <;> (try split_ifs) <;> rfl

theorem joinGroup_savings_ne (st : ChainState) (j : Principal) (gid h gid2 : Nat)
    (hne : gid2 ≠ gid) :
    (joinGroup st j gid h).2.savingsGroups gid2 = st.savingsGroups gid2 := by
  unfold joinGroup joinGroupCommit
  rcases hg : st.savingsGroups gid with _ | g
  · rfl
  · dsimp only
    rcases hthr : g.threshold with _ | t <;> simp only [hthr] <;>
      split_ifs <;> (try dsimp only) <;> (try split_ifs) <;>
      first
      | rfl
      | simp_all

theorem joinGroup_list_ne (st : ChainState) (j : Principal) (gid h gid2 : Nat)
    (hne : gid2 ≠ gid) :
    (joinGroup st j gid h).2.groupMemberList gid2 = st.groupMemberList gid2 := by
  unfold joinGroup joinGroupCommit
  rcases hg : st.savingsGroups gid with _ | g
  · rfl
  · dsimp only
    rcases hthr : g.threshold with _ | t <;> simp only [hthr] <;>
      split_ifs <;> (try dsimp only) <;> (try split_ifs) <;>
      first
      | rfl
      | simp_all

theorem startGroupLock_counter (st : ChainState) (s : Principal) (gid h : Nat) :
    (startGroupLock st s gid h).2.groupCounter = st.groupCounter := by
  unfold startGroupLock
  rcases st.savingsGroups gid with _ | g
  · rfl
  · dsimp only
    split_ifs <;> rfl

theorem startGroupLock_list (st : ChainState) (s : Principal) (gid h : Nat) :
    (startGroupLock st s gid h).2.groupMemberList = st.groupMemberList := by
  unfold startGroupLock
  rcases st.savingsGroups gid with _ | g
  · rfl
  · dsimp only
    split_ifs <;> rfl

theorem startGroupLock_savings_ne (st : ChainState) (s : Principal) (gid h gid2 : Nat)
    (hne : gid2 ≠ gid) :
    (startGroupLock st s gid h).2.savingsGroups gid2 = st.savingsGroups gid2 := by
  unfold startGroupLock
  rcases st.savingsGroups gid with _ | g
  · rfl
  · dsimp only
    split_ifs <;> simp [hne]

theorem createGroup_cases (st : ChainState) (c : Principal) (n : String)
    (l : Nat) (t : Option Nat) (h : Nat) :
    (createGroup st c n l t h).2 = st ∨
    (createGroup st c n l t h).2 =
      createGroupCommit st c n (getLockDuration l) t (st.groupCounter + 1) h := by
  unfold createGroup
  rcases t with _ | t' <;> dsimp only <;> split_ifs <;> simp

theorem startGroupLock_cases (st : ChainState) (s : Principal) (gid2 h : Nat) :
    (startGroupLock st s gid2 h).2 = st ∨
    ∃ g0, st.savingsGroups gid2 = some g0 ∧
      (startGroupLock st s gid2 h).2 =
        { st with
           savingsGroups := fun gg =>
             if gg = gid2 then
               some { g0 with
                       locked := true, startBlock := some h,
                       lockExpiry := some (h + g0.duration) }
             else st.savingsGroups gg } := by
  unfold startGroupLock
  rcases hg2 : st.savingsGroups gid2 with _ | g0
  · exact Or.inl rfl
  · dsimp only
    split_ifs
    · exact Or.inl rfl
    · exact Or.inl rfl
    · exact Or.inl rfl
    · exact Or.inr ⟨g0, rfl, rfl⟩

theorem joinGroup_target_effect (st : ChainState) (j : Principal) (gid2 h : Nat) :
    (joinGroup st j gid2 h).2 = st ∨
    ∃ g0 g', st.savingsGroups gid2 = some g0 ∧
      (joinGroup st j gid2 h).2.savingsGroups gid2 = some g' ∧
      g'.memberCount = g0.memberCount + 1 ∧
      (joinGroup st j gid2 h).2.groupMemberList gid2 =
        some ((st.groupMemberList gid2).getD [] ++ [j]) := by
  unfold joinGroup joinGroupCommit
  rcases hg2 : st.savingsGroups gid2 with _ | g0
  · exact Or.inl rfl
  · dsimp only
    by_cases hl : g0.locked = true
    · simp [hl]
    · simp only [Bool.not_eq_true] at hl
      simp only [hl, Bool.false_eq_true, if_false]
      by_cases hm : (st.groupMembers gid2 j).isSome = true
      · simp [hm]
      · simp only [Bool.not_eq_true] at hm
        simp only [hm, Bool.false_eq_true, if_false]
        by_cases hcap : 100 < ((st.groupMemberList gid2).getD []).length + 1
        · rcases hthr : g0.threshold with _ | t
          · dsimp only
            simp [hcap]
          · dsimp only
            by_cases hlt : g0.memberCount < t <;> simp [hlt, hcap]
        · rcases hthr : g0.threshold with _ | t
          · dsimp only
            refine Or.inr ⟨g0, { g0 with memberCount := g0.memberCount + 1 },
              rfl, ?_, rfl, ?_⟩ <;> simp [hcap, hthr, hl]
          · dsimp only
            by_cases hlt : g0.memberCount < t
            · simp only [hlt, if_true]
              by_cases hdec : t ≤ g0.memberCount + 1
              · refine Or.inr ⟨g0,
                  { g0 with
                     memberCount := g0.memberCount + 1, locked := true,
                     startBlock := some h, lockExpiry := some (h + g0.duration) },
                  rfl, ?_, rfl, ?_⟩ <;> simp [hcap, hdec, hthr, hl]
              · refine Or.inr ⟨g0, { g0 with memberCount := g0.memberCount + 1 },
                  rfl, ?_, rfl, ?_⟩ <;> simp [hcap, hdec, hthr, hl]
            · simp [hlt]

/-- A `join-group` aimed at a missing group aborts untouched. -/
theorem joinGroup_notfound (st : ChainState) (j : Principal) (gid h : Nat)
    (hnone : st.savingsGroups gid = none) :
    joinGroup st j gid h = (Except.error ERR_GROUP_NOT_FOUND, st) := by
  unfold joinGroup
  rw [hnone]

/-- A `start-group-lock` aimed at a missing group aborts untouched. -/
theorem startGroupLock_notfound (st : ChainState) (s : Principal) (gid h : Nat)
    (hnone : st.savingsGroups gid = none) :
    startGroupLock st s gid h = (Except.error ERR_GROUP_NOT_FOUND, st) := by
  unfold startGroupLock
  rw [hnone]

/-- A `join-group` aimed at an already locked group aborts untouched. -/
theorem joinGroup_locked_noop (st : ChainState) (j : Principal) (gid h : Nat)
    (g : GroupRec) (hg : st.savingsGroups gid = some g) (hl : g.locked = true) :
    joinGroup st j gid h = (Except.error ERR_GROUP_LOCKED, st) := by
  unfold joinGroup
  rw [hg]
  simp [hl]

/-- A `start-group-lock` aimed at an already locked group leaves the
state untouched (it fails the creator check or the locked check). -/
theorem startGroupLock_locked_noop (st : ChainState) (s : Principal) (gid h : Nat)
    (g : GroupRec) (hg : st.savingsGroups gid = some g) (hl : g.locked = true) :
    (startGroupLock st s gid h).2 = st := by
  unfold startGroupLock
  rw [hg]
  by_cases hc : s = g.creator <;> simp [hc, hl]

/-! ## Step-level invariant preservation -/

theorem counterBound_init : CounterBound initState := by
  intro gid _
  rfl

theorem counterBound_step (st : ChainState) (op : Op) (hcb : CounterBound st) :
    CounterBound (step st op) := by
  cases op with
  | deposit s a l h =>
    intro gid hgid
    simp only [step] at hgid ⊢
    rw [(deposit_groups_frame st s a l h).2.1] at hgid
    rw [(deposit_groups_frame st s a l h).1]
    exact hcb gid hgid
  | withdraw s a h =>
    intro gid hgid
    simp only [step] at hgid ⊢
    rw [(withdraw_groups_frame st s a h).2.1] at hgid
    rw [(withdraw_groups_frame st s a h).1]
    exact hcb gid hgid
  | createGroup c n l t h =>
    intro gid hgid
    simp only [step] at hgid ⊢
    rcases createGroup_cases st c n l t h with hc | hc <;> rw [hc] at hgid ⊢
    · exact hcb gid hgid
    · unfold createGroupCommit at hgid ⊢
      dsimp only at hgid ⊢
      rw [if_neg (by omega : ¬ gid = st.groupCounter + 1)]
      exact hcb gid (by omega)
  | joinGroup j gid2 h =>
    intro gid hgid
    simp only [step] at hgid ⊢
    rw [joinGroup_counter st j gid2 h] at hgid
    by_cases heq : gid = gid2
    · subst heq
      rw [joinGroup_notfound st j gid h (hcb gid hgid)]
      exact hcb gid hgid
    · rw [joinGroup_savings_ne st j gid2 h gid heq]
      exact hcb gid hgid
  | startGroupLock s gid2 h =>
    intro gid hgid
    simp only [step] at hgid ⊢
    rw [startGroupLock_counter st s gid2 h] at hgid
    by_cases heq : gid = gid2
    · subst heq
      rw [startGroupLock_notfound st s gid h (hcb gid hgid)]
      exact hcb gid hgid
    · rw [startGroupLock_savings_ne st s gid2 h gid heq]
      exact hcb gid hgid
  | groupDeposit d gid2 a h =>
    intro gid hgid
    simp only [step] at hgid ⊢
    rw [(groupDeposit_groups_frame st d gid2 a h).2.1] at hgid
    rw [(groupDeposit_groups_frame st d gid2 a h).1]
    exact hcb gid hgid
  | groupWithdraw w gid2 a h =>
    intro gid hgid
    simp only [step] at hgid ⊢
    rw [(groupWithdraw_groups_frame st w gid2 a h).2.1] at hgid
    rw [(groupWithdraw_groups_frame st w gid2 a h).1]
    exact hcb gid hgid

/-- One call never modifies an already locked group's record at all. -/
theorem lockedEntry_step (st : ChainState) (op : Op) (hcb : CounterBound st)
    (gid : Nat) (g : GroupRec) (hg : st.savingsGroups gid = some g)
    (hl : g.locked = true) :
    (step st op).savingsGroups gid = some g := by
  cases op with
  | deposit s a l h =>
    simp only [step]
    rw [(deposit_groups_frame st s a l h).1]
    exact hg
  | withdraw s a h =>
    simp only [step]
    rw [(withdraw_groups_frame st s a h).1]
    exact hg
  | createGroup c n l t h =>
    simp only [step]
    have hne : gid ≠ st.groupCounter + 1 := by
      intro heq
      have hnone := hcb (st.groupCounter + 1) (by omega)
      rw [heq, hnone] at hg
      cases hg
    rw [createGroup_savings_ne st c n l t h gid hne]
    exact hg
  | joinGroup j gid2 h =>
    simp only [step]
    by_cases heq : gid = gid2
    · subst heq
      rw [joinGroup_locked_noop st j gid h g hg hl]
      exact hg
    · rw [joinGroup_savings_ne st j gid2 h gid heq]
      exact hg
  | startGroupLock s gid2 h =>
    simp only [step]
    by_cases heq : gid = gid2
    · subst heq
      rw [startGroupLock_locked_noop st s gid h g hg hl]
      exact hg
    · rw [startGroupLock_savings_ne st s gid2 h gid heq]
      exact hg
  | groupDeposit d gid2 a h =>
    simp only [step]
    rw [(groupDeposit_groups_frame st d gid2 a h).1]
    exact hg
  | groupWithdraw w gid2 a h =>
    simp only [step]
    rw [(groupWithdraw_groups_frame st w gid2 a h).1]
    exact hg

theorem counterBound_run (st : ChainState) (hcb : CounterBound st) (ops : List Op) :
    CounterBound (run st ops) := by
  induction ops generalizing st with
  | nil => exact hcb
  | cons op rest ih => exact ih (step st op) (counterBound_step st op hcb)

theorem lockedEntry_run (st : ChainState) (hcb : CounterBound st) (ops : List Op)
    (gid : Nat) (g : GroupRec) (hg : st.savingsGroups gid = some g)
    (hl : g.locked = true) :
    (run st ops).savingsGroups gid = some g := by
  induction ops generalizing st with
  | nil => exact hg
  | cons op rest ih =>
    exact ih (step st op) (counterBound_step st op hcb)
      (lockedEntry_step st op hcb gid g hg hl)

theorem memberCountInv_init : MemberCountInv initState := by
  intro gid g hg
  cases hg

theorem memberCountInv_step (st : ChainState) (op : Op) (hinv : MemberCountInv st) :
    MemberCountInv (step st op) := by
  cases op with
  | deposit s a l h =>
    intro gid g hg
    simp only [step] at hg ⊢
    rw [(deposit_groups_frame st s a l h).1] at hg
    rw [(deposit_groups_frame st s a l h).2.2]
    exact hinv gid g hg
  | withdraw s a h =>
    intro gid g hg
    simp only [step] at hg ⊢
    rw [(withdraw_groups_frame st s a h).1] at hg
    rw [(withdraw_groups_frame st s a h).2.2]
    exact hinv gid g hg
  | createGroup c n l t h =>
    intro gid g hg
    simp only [step] at hg ⊢
    rcases createGroup_cases st c n l t h with hc | hc <;> rw [hc] at hg ⊢
    · exact hinv gid g hg
    · unfold createGroupCommit at hg ⊢
      dsimp only at hg ⊢
      by_cases heq : gid = st.groupCounter + 1
      · rw [if_pos heq] at hg ⊢
        refine ⟨[c], rfl, ?_⟩
        injection hg with hgg
        subst hgg
        rfl
      · rw [if_neg heq] at hg ⊢
        exact hinv gid g hg
  | joinGroup j gid2 h =>
    intro gid g hg
    simp only [step] at hg ⊢
    rcases joinGroup_target_effect st j gid2 h with heff | ⟨g0, g', hg0, hsg, hmc, hml⟩
    · rw [heff] at hg ⊢
      exact hinv gid g hg
    · by_cases heq : gid = gid2
      · subst heq
        rw [hsg] at hg
        injection hg with hgg
        obtain ⟨l, hll, hcnt⟩ := hinv gid g0 hg0
        refine ⟨l ++ [j], ?_, ?_⟩
        · rw [hml, hll]
          simp
        · rw [← hgg, hmc, hcnt]
          simp
      · rw [joinGroup_savings_ne st j gid2 h gid heq] at hg
        obtain ⟨l, hll, hcnt⟩ := hinv gid g hg
        refine ⟨l, ?_, hcnt⟩
        rw [joinGroup_list_ne st j gid2 h gid heq]
        exact hll
  | startGroupLock s gid2 h =>
    intro gid g hg
    simp only [step] at hg ⊢
    rcases startGroupLock_cases st s gid2 h with hc | ⟨g0, hg0, hc⟩ <;> rw [hc] at hg ⊢
    · exact hinv gid g hg
    · dsimp only at hg ⊢
      by_cases heq : gid = gid2
      · rw [if_pos heq] at hg
        injection hg with hgg
        obtain ⟨l, hll, hcnt⟩ := hinv gid2 g0 hg0
        refine ⟨l, ?_, ?_⟩
        · subst heq
          exact hll
        · rw [← hgg]
          exact hcnt
      · rw [if_neg heq] at hg
        exact hinv gid g hg
  | groupDeposit d gid2 a h =>
    intro gid g hg
    simp only [step] at hg ⊢
    rw [(groupDeposit_groups_frame st d gid2 a h).1] at hg
    rw [(groupDeposit_groups_frame st d gid2 a h).2.2]
    exact hinv gid g hg
  | groupWithdraw w gid2 a h =>
    intro gid g hg
    simp only [step] at hg ⊢
    rw [(groupWithdraw_groups_frame st w gid2 a h).1] at hg
    rw [(groupWithdraw_groups_frame st w gid2 a h).2.2]
    exact hinv gid g hg

theorem memberCountInv_run (st : ChainState) (hinv : MemberCountInv st)
    (ops : List Op) : MemberCountInv (run st ops) := by
  induction ops generalizing st with
  | nil => exact hinv
  | cons op rest ih => exact ih (step st op) (memberCountInv_step st op hinv)

/-- C7: A group's `locked` flag transitions false to true at most once
and is irreversible: in any state reachable from deployment, once a
group's record is locked, no further sequence of public calls ever
changes that record again — `locked` never returns to false and
`start-block` and `lock-expiry` are never modified. -/
theorem group_lock_irreversible (ops0 ops : List Op) (gid : Nat) (g : GroupRec)
    (hg : (run initState ops0).savingsGroups gid = some g)
    (hlocked : g.locked = true) :
    (run (run initState ops0) ops).savingsGroups gid = some g ∧
    ∀ g', (run (run initState ops0) ops).savingsGroups gid = some g' →
      g'.locked = true ∧ g'.startBlock = g.startBlock ∧
      g'.lockExpiry = g.lockExpiry := by
  have hfix : (run (run initState ops0) ops).savingsGroups gid = some g :=
    lockedEntry_run (run initState ops0)
      (counterBound_run initState counterBound_init ops0) ops gid g hg hlocked
  refine ⟨hfix, ?_⟩
  intro g' hg'
  rw [hfix] at hg'
  injection hg' with hgg
  subst hgg
  exact ⟨hlocked, rfl, rfl⟩

/-- Witness for C7: group 1 locks at height 4 (threshold 2 reached);
after a further manual lock attempt, a join, a deposit and a withdrawal
its record is byte-for-byte the same locked record. -/
theorem group_lock_irreversible_witness :
    (run (run initState [Op.createGroup 1 "g" 1 (some 2) 0, Op.joinGroup 2 1 4])
        [Op.startGroupLock 1 1 12, Op.joinGroup 3 1 12,
         Op.groupDeposit 2 1 5 12, Op.groupWithdraw 2 1 5 12]).savingsGroups 1 =
      some { creator := 1, name := "g", duration := 6, threshold := some 2,
             memberCount := 2, locked := true, startBlock := some 4,
             lockExpiry := some 10 } :=
  (group_lock_irreversible [Op.createGroup 1 "g" 1 (some 2) 0, Op.joinGroup 2 1 4]
    [Op.startGroupLock 1 1 12, Op.joinGroup 3 1 12,
     Op.groupDeposit 2 1 5 12, Op.groupWithdraw 2 1 5 12] 1
    { creator := 1, name := "g", duration := 6, threshold := some 2,
      memberCount := 2, locked := true, startBlock := some 4,
      lockExpiry := some 10 }
    (by decide) (by decide)).1

/-- C10: In every state reachable from deployment by any sequence of
public calls, each existing group's `member-count` equals the length of
that group's member-list entry — `create-group` initialises both to 1
and `[creator]`, `join-group` appends exactly one identity while
incrementing the count, and `group-withdraw` deletes a zero-balance
membership record without touching the list or the count. -/
theorem memberCount_matches_list (ops : List Op) (gid : Nat) (g : GroupRec)
    (hg : (run initState ops).savingsGroups gid = some g) :
    ∃ l : List Principal,
      (run initState ops).groupMemberList gid = some l ∧
      g.memberCount = l.length :=
  memberCountInv_run initState memberCountInv_init ops gid g hg

/-- Witness for C10: after a create, a join and a full withdrawal by the
joiner, group 1's count is 2 and its member list still has 2 entries. -/
theorem memberCount_matches_list_witness :
    ∃ l : List Principal,
      (run initState
        [Op.createGroup 1 "g" 1 (some 2) 0, Op.joinGroup 2 1 4,
         Op.groupDeposit 2 1 5 6, Op.groupWithdraw 2 1 5 10]).groupMemberList 1 =
        some l ∧
      (2 : Nat) = l.length :=
  memberCount_matches_list
    [Op.createGroup 1 "g" 1 (some 2) 0, Op.joinGroup 2 1 4,
     Op.groupDeposit 2 1 5 6, Op.groupWithdraw 2 1 5 10] 1
    { creator := 1, name := "g", duration := 6, threshold := some 2,
      memberCount := 2, locked := true, startBlock := some 4,
      lockExpiry := some 10 }
    (by decide)

/-! ## Multi-deposit ledger lemmas -/

theorem createDeposit_spec (st : MultiState) (owner : Principal) (a l : Nat)
    (lab : Option String) (now : Nat) (ha : a ≠ 0) (hd : getLockDuration l ≠ 0) :
    (createDeposit st owner a l lab now).1 = Except.ok (st.depositCounter + 1) ∧
    (createDeposit st owner a l lab now).2.depositCounter = st.depositCounter + 1 ∧
    (createDeposit st owner a l lab now).2.userDeposits owner (st.depositCounter + 1) =
      some { amount := a, lockOption := l, depositTime := now,
             lockExpiry := now + getLockDuration l, withdrawn := false, label := lab } ∧
    (∀ o i, ¬ (o = owner ∧ i = st.depositCounter + 1) →
      (createDeposit st owner a l lab now).2.userDeposits o i = st.userDeposits o i) ∧
    (createDeposit st owner a l lab now).2.userDepositIds owner =
      st.userDepositIds owner ++ [st.depositCounter + 1] := by
  unfold createDeposit
  refine ⟨by simp [ha, hd], by simp [ha, hd], by simp [ha, hd], ?_, by simp [ha, hd]⟩
  intro o i hne
  simp [ha, hd, hne]

theorem withdrawDeposit_full_spec (st : MultiState) (owner : Principal) (i now : Nat)
    (slot : MultiSlot) (hs : st.userDeposits owner i = some slot)
    (hw : slot.withdrawn = false) (hexp : slot.lockExpiry ≤ now) :
    (withdrawDeposit st owner i slot.amount now).1 = Except.ok slot.amount ∧
    (withdrawDeposit st owner i slot.amount now).2.userDeposits owner i =
      some { slot with amount := 0, withdrawn := true } ∧
    (∀ o i2, ¬ (o = owner ∧ i2 = i) →
      (withdrawDeposit st owner i slot.amount now).2.userDeposits o i2 =
        st.userDeposits o i2) ∧
    (withdrawDeposit st owner i slot.amount now).2.userDepositIds =
      st.userDepositIds := by
  unfold withdrawDeposit
  have hnl : ¬ now < slot.lockExpiry := by omega
  refine ⟨by simp [hs, hw, hnl], by simp [hs, hw, hnl, Nat.sub_self], ?_,
    by simp [hs, hw, hnl]⟩
  intro o i2 hne
  simp [hs, hw, hnl, hne]

/-- C9: In the multi-deposit ledger, two successful `create-deposit`
calls by the same owner allocate the two distinct, previously-unused ids
counter+1 and counter+2, each slot stored with its own amount, expiry
and `withdrawn = false` and both appended to the owner's id index; and a
full withdrawal of the first slot marks it withdrawn while leaving the
second slot's amount, `lock_expiry` and `withdrawn` flag (and the id
index) unchanged. -/
theorem multiDeposit_independent_slots (st : MultiState) (hwf : MultiCounterBound st)
    (owner : Principal) (a1 l1 t1 a2 l2 t2 now : Nat) (lab1 lab2 : Option String)
    (ha1 : a1 ≠ 0) (hd1 : getLockDuration l1 ≠ 0)
    (ha2 : a2 ≠ 0) (hd2 : getLockDuration l2 ≠ 0)
    (hnow : t1 + getLockDuration l1 ≤ now) :
    (createDeposit st owner a1 l1 lab1 t1).1 = Except.ok (st.depositCounter + 1) ∧
    (createDeposit (createDeposit st owner a1 l1 lab1 t1).2 owner a2 l2 lab2 t2).1 =
      Except.ok (st.depositCounter + 2) ∧
    st.depositCounter + 1 ≠ st.depositCounter + 2 ∧
    st.userDeposits owner (st.depositCounter + 1) = none ∧
    (st.depositCounter + 1) ∉ st.userDepositIds owner ∧
    st.userDeposits owner (st.depositCounter + 2) = none ∧
    (st.depositCounter + 2) ∉ st.userDepositIds owner ∧
    (createDeposit (createDeposit st owner a1 l1 lab1 t1).2
        owner a2 l2 lab2 t2).2.userDeposits owner (st.depositCounter + 1) =
      some { amount := a1, lockOption := l1, depositTime := t1,
             lockExpiry := t1 + getLockDuration l1, withdrawn := false,
             label := lab1 } ∧
    (createDeposit (createDeposit st owner a1 l1 lab1 t1).2
        owner a2 l2 lab2 t2).2.userDeposits owner (st.depositCounter + 2) =
      some { amount := a2, lockOption := l2, depositTime := t2,
             lockExpiry := t2 + getLockDuration l2, withdrawn := false,
             label := lab2 } ∧
    (createDeposit (createDeposit st owner a1 l1 lab1 t1).2
        owner a2 l2 lab2 t2).2.userDepositIds owner =
      st.userDepositIds owner ++ [st.depositCounter + 1, st.depositCounter + 2] ∧
    (withdrawDeposit (createDeposit (createDeposit st owner a1 l1 lab1 t1).2
        owner a2 l2 lab2 t2).2 owner (st.depositCounter + 1) a1 now).1 =
      Except.ok a1 ∧
    (withdrawDeposit (createDeposit (createDeposit st owner a1 l1 lab1 t1).2
        owner a2 l2 lab2 t2).2 owner (st.depositCounter + 1) a1 now).2.userDeposits
        owner (st.depositCounter + 1) =
      some { amount := 0, lockOption := l1, depositTime := t1,
             lockExpiry := t1 + getLockDuration l1, withdrawn := true,
             label := lab1 } ∧
    (withdrawDeposit (createDeposit (createDeposit st owner a1 l1 lab1 t1).2
        owner a2 l2 lab2 t2).2 owner (st.depositCounter + 1) a1 now).2.userDeposits
        owner (st.depositCounter + 2) =
      some { amount := a2, lockOption := l2, depositTime := t2,
             lockExpiry := t2 + getLockDuration l2, withdrawn := false,
             label := lab2 } ∧
    (withdrawDeposit (createDeposit (createDeposit st owner a1 l1 lab1 t1).2
        owner a2 l2 lab2 t2).2 owner (st.depositCounter + 1) a1 now).2.userDepositIds =
      (createDeposit (createDeposit st owner a1 l1 lab1 t1).2
        owner a2 l2 lab2 t2).2.userDepositIds := by
  obtain ⟨s1res, s1ctr, s1slot, s1frame, s1ids⟩ :=
    createDeposit_spec st owner a1 l1 lab1 t1 ha1 hd1
  obtain ⟨s2res, s2ctr, s2slot, s2frame, s2ids⟩ :=
    createDeposit_spec (createDeposit st owner a1 l1 lab1 t1).2 owner a2 l2 lab2 t2
      ha2 hd2
  rw [s1ctr] at s2res s2ctr s2slot s2frame s2ids
  have hne21 : ¬ (owner = owner ∧
      st.depositCounter + 1 = st.depositCounter + 1 + 1) := by omega
  have hslot1 : (createDeposit (createDeposit st owner a1 l1 lab1 t1).2
      owner a2 l2 lab2 t2).2.userDeposits owner (st.depositCounter + 1) =
      some { amount := a1, lockOption := l1, depositTime := t1,
             lockExpiry := t1 + getLockDuration l1, withdrawn := false,
             label := lab1 } := by
    rw [s2frame owner (st.depositCounter + 1) hne21]
    exact s1slot
  obtain ⟨s3res, s3slot, s3frame, s3ids⟩ :=
    withdrawDeposit_full_spec (createDeposit (createDeposit st owner a1 l1 lab1 t1).2
      owner a2 l2 lab2 t2).2 owner (st.depositCounter + 1) now
      { amount := a1, lockOption := l1, depositTime := t1,
        lockExpiry := t1 + getLockDuration l1, withdrawn := false, label := lab1 }
      hslot1 rfl hnow
  have hne12 : ¬ (owner = owner ∧
      st.depositCounter + 1 + 1 = st.depositCounter + 1) := by omega
  refine ⟨s1res, s2res, by omega, (hwf owner _ (by omega)).1,
    (hwf owner _ (by omega)).2, (hwf owner _ (by omega)).1,
    (hwf owner _ (by omega)).2, hslot1, s2slot, ?_, s3res, s3slot, ?_, s3ids⟩
  · rw [s2ids, s1ids]
    simp
  · rw [s3frame owner (st.depositCounter + 2) hne12]
    exact s2slot

/-- Witness for C9: owner 3 creates slot 1 (5 units, option 1, expiry 6)
and slot 2 (7 units, option 2, expiry 18) at time 0 from the empty
ledger, then fully withdraws slot 1 at time 6; slot 2 is untouched. -/
theorem multiDeposit_independent_slots_witness :
    (withdrawDeposit (createDeposit (createDeposit initMultiState 3 5 1 none 0).2
        3 7 2 none 0).2 3 1 5 6).2.userDeposits 3 2 =
      some { amount := 7, lockOption := 2, depositTime := 0,
             lockExpiry := 18, withdrawn := false, label := none } ∧
    (withdrawDeposit (createDeposit (createDeposit initMultiState 3 5 1 none 0).2
        3 7 2 none 0).2 3 1 5 6).2.userDeposits 3 1 =
      some { amount := 0, lockOption := 1, depositTime := 0,
             lockExpiry := 6, withdrawn := true, label := none } := by
  have h := multiDeposit_independent_slots initMultiState
    (by intro o i _; exact ⟨rfl, by simp [initMultiState]⟩) 3 5 1 0 7 2 0 6 none none
    (by decide) (by decide) (by decide) (by decide) (by decide)
  obtain ⟨-, -, -, -, -, -, -, -, -, -, -, h12, h13, -⟩ := h
  exact ⟨h13, h12⟩

end StackIt
